import Mathlib

/-!
# Verification of the Dracula high-contrast theme generator

A shallow embedding of `scripts/generate.js`, the single generation script of
the repository. The script loads a YAML palette, sanitizes the color mapping,
and derives two further variants:

* `transformSoft` desaturates every color mapping value and token foreground
  that is a member of the bright palette (`dracula.ansi ++ dracula.brightOther`)
  using `tinycolor(v).desaturate(20).toHexString()`;
* `transformHighContrast` sweeps background-role keys to black (phase 1) and
  then applies an explicit override table via `Object.assign` (phase 2).

JS objects are modelled as association lists (`List (String × α)`, first match
wins on lookup, which coincides with JS object semantics since object keys are
unique). JS number arithmetic is modelled exactly over `ℚ`; the exact-rational
model reproduces the observed outputs of the IEEE pipeline on the palette
(e.g. `#FF5555 ↦ #ee6666`, `#F1FA8C ↦ #e7ee98`, the published soft palette).
The `JSON.parse(JSON.stringify(·))` deep copy performed by both transforms is
the identity in the pure model.
-/

set_option autoImplicit false
set_option maxRecDepth 100000
set_option maxHeartbeats 2000000

attribute [local semireducible] Rat.mul Rat.add Rat.sub Rat.inv Rat.ofScientific

namespace Gen

/-! ## JS objects as association lists -/

/-- Property access `obj[key]` on a JS object modelled as an association
list: the first matching key wins (keys are unique in a real JS object). -/
def lookup {α : Type} : List (String × α) → String → Option α
  | [], _ => none
  | (k0, v0) :: rest, k => if k0 == k then some v0 else lookup rest k

/-- Property assignment `obj[key] = v`: replace the value at an existing key
in place, or append a fresh entry at the end. -/
def setKey {α : Type} : List (String × α) → String → α → List (String × α)
  | [], k, v => [(k, v)]
  | (k0, v0) :: rest, k, v =>
    if k0 == k then (k, v) :: rest else (k0, v0) :: setKey rest k v

/-- JS `Object.assign(m, ovr)`: assign every entry of `ovr`, in order, onto `m`. -/
def objAssign {α : Type} (m : List (String × α)) (ovr : List (String × α)) :
    List (String × α) :=
  ovr.foldl (fun acc kv => setKey acc kv.1 kv.2) m

/-- Does `needle` occur as a contiguous run inside `hay`? -/
def containsSub (needle : List Char) : List Char → Bool
  | [] => needle.isPrefixOf []
  | c :: rest => needle.isPrefixOf (c :: rest) || containsSub needle rest

/-- JS `String.prototype.includes`: substring containment. -/
def jsIncludes (s sub : String) : Bool :=
  containsSub sub.toList s.toList

/-- JS `String.prototype.endsWith` (at the character-list level). -/
def jsEndsWith (s suffix : String) : Bool :=
  suffix.toList.isSuffixOf s.toList

/-! ## Exact-rational model of the tinycolor2 numeric pipeline

Only the code paths exercised by `desaturate(20).toHexString()` on string
inputs are modelled, and string parsing is restricted to the hex matchers
(`hex3/hex4/hex6/hex8`); CSS functional and named color syntaxes are not
modelled, since theme color values are hex strings (spec §3 invariant). Any
other string is an invalid input, which tinycolor maps to `r = g = b = 0`. -/

/-- JS `Math.round` for the nonnegative rationals arising here. -/
def jsRound (q : ℚ) : ℤ := ⌊q + 1 / 2⌋

/-- The JS `%` remainder, for the nonnegative operands arising here. -/
def jsMod (n m : ℚ) : ℚ := n - m * ⌊n / m⌋

/-- The clamp `mathMin(max, mathMax(0, parseFloat(n)))` at the top of
tinycolor `bound01`. -/
def b01clamp (n maxv : ℚ) : ℚ := min maxv (max 0 n)

/-- The percentage-truncation step of tinycolor `bound01`:
`if (processPercent) n = parseInt(n * max, 10) / 100` (truncation of the
nonnegative argument is `⌊·⌋`). -/
def b01pct (isPct : Bool) (n maxv : ℚ) : ℚ :=
  if isPct then ((⌊n * maxv⌋ : ℤ) : ℚ) / 100 else n

/-- tinycolor `bound01(n, max)`: force a value into `[0, 1]`. With
`isPct = true` the argument `n` is the numeric value of a percentage string
produced by `convertToPercentage` (which is the fraction times 100). -/
def bound01 (isPct : Bool) (n maxv : ℚ) : ℚ :=
  if |b01pct isPct (b01clamp n maxv) maxv - maxv| < 1 / 1000000 then 1
  else jsMod (b01pct isPct (b01clamp n maxv) maxv) maxv / maxv

/-- tinycolor `clamp01`. -/
def clamp01 (x : ℚ) : ℚ := min 1 (max 0 x)

/-- An HSL triple as the tinycolor function `rgbToHsl` returns it: `h ∈ [0, 1)`,
`s, l ∈ [0, 1]` (the public `toHsl` scales `h` by 360). -/
structure Hsl where
  h : ℚ
  s : ℚ
  l : ℚ
  deriving DecidableEq

/-- An RGB triple on the `[0, 255]` scale. -/
structure Rgb where
  r : ℚ
  g : ℚ
  b : ℚ
  deriving DecidableEq

/-- The value `Math.max(r, g, b)` in `rgbToHsl`. -/
def rgbMax (r g b : ℚ) : ℚ := max r (max g b)

/-- The value `Math.min(r, g, b)` in `rgbToHsl`. -/
def rgbMin (r g b : ℚ) : ℚ := min r (min g b)

/-- The saturation branch of `rgbToHsl` for the non-achromatic case:
`l > 0.5 ? d / (2 - max - min) : d / (max + min)` with `l = (max + min) / 2`
and `d = max - min` (arguments are the already-bounded channels). -/
def hslSat (r g b : ℚ) : ℚ :=
  if (rgbMax r g b + rgbMin r g b) / 2 > 1 / 2 then
    (rgbMax r g b - rgbMin r g b) / (2 - rgbMax r g b - rgbMin r g b)
  else (rgbMax r g b - rgbMin r g b) / (rgbMax r g b + rgbMin r g b)

/-- The hue `switch` of `rgbToHsl` for the non-achromatic case, already
divided by 6 (arguments are the already-bounded channels). -/
def hslHue (r g b : ℚ) : ℚ :=
  (if rgbMax r g b = r then
      (g - b) / (rgbMax r g b - rgbMin r g b) + (if g < b then 6 else 0)
    else if rgbMax r g b = g then (b - r) / (rgbMax r g b - rgbMin r g b) + 2
    else (r - g) / (rgbMax r g b - rgbMin r g b) + 4) / 6

/-- tinycolor `rgbToHsl` on channels already bounded into `[0, 1]`. -/
def rgbToHsl01 (r g b : ℚ) : Hsl :=
  if rgbMax r g b = rgbMin r g b then
    { h := 0, s := 0, l := (rgbMax r g b + rgbMin r g b) / 2 }
  else
    { h := hslHue r g b, s := hslSat r g b, l := (rgbMax r g b + rgbMin r g b) / 2 }

/-- tinycolor `rgbToHsl` (inputs on the `[0, 255]` scale). -/
def rgbToHsl (r g b : ℚ) : Hsl :=
  rgbToHsl01 (bound01 false r 255) (bound01 false g 255) (bound01 false b 255)

/-- First normalization `if (t < 0) t += 1` of tinycolor `hue2rgb`. -/
def hueNorm1 (t : ℚ) : ℚ := if t < 0 then t + 1 else t

/-- Second normalization `if (t > 1) t -= 1` of tinycolor `hue2rgb`. -/
def hueNorm2 (t : ℚ) : ℚ := if t > 1 then t - 1 else t

/-- The branch cascade of tinycolor `hue2rgb` after normalization. -/
def hue2rgbStep (p q t : ℚ) : ℚ :=
  if t < 1 / 6 then p + (q - p) * 6 * t
  else if t < 1 / 2 then q
  else if t < 2 / 3 then p + (q - p) * (2 / 3 - t) * 6
  else p

/-- tinycolor `hue2rgb`: the two sequential reassignments of `t` followed by
the branch cascade. -/
def hue2rgb (p q t : ℚ) : ℚ := hue2rgbStep p q (hueNorm2 (hueNorm1 t))

/-- The assignment `q = l < 0.5 ? l * (1 + s) : l + s - l * s` in `hslToRgb`. -/
def hslQ (s l : ℚ) : ℚ := if l < 1 / 2 then l * (1 + s) else l + s - l * s

/-- The assignment `p = 2 * l - q` in `hslToRgb`. -/
def hslP (s l : ℚ) : ℚ := 2 * l - hslQ s l

/-- tinycolor `hslToRgb` as reached through `inputToRGB` on an HSL object:
`h` is on the `[0, 360]` scale, and `s01`, `l01` are fractions in `[0, 1]`
that `convertToPercentage` turns into percentage strings (hence the
`* 100` and the percentage truncation inside `bound01`). -/
def hslToRgb (h s01 l01 : ℚ) : Rgb :=
  if bound01 true (s01 * 100) 100 = 0 then
    { r := bound01 true (l01 * 100) 100 * 255
      g := bound01 true (l01 * 100) 100 * 255
      b := bound01 true (l01 * 100) 100 * 255 }
  else
    { r := hue2rgb (hslP (bound01 true (s01 * 100) 100) (bound01 true (l01 * 100) 100))
          (hslQ (bound01 true (s01 * 100) 100) (bound01 true (l01 * 100) 100))
          (bound01 false h 360 + 1 / 3) * 255
      g := hue2rgb (hslP (bound01 true (s01 * 100) 100) (bound01 true (l01 * 100) 100))
          (hslQ (bound01 true (s01 * 100) 100) (bound01 true (l01 * 100) 100))
          (bound01 false h 360) * 255
      b := hue2rgb (hslP (bound01 true (s01 * 100) 100) (bound01 true (l01 * 100) 100))
          (hslQ (bound01 true (s01 * 100) 100) (bound01 true (l01 * 100) 100))
          (bound01 false h 360 - 1 / 3) * 255 }

/-- Value of one hex digit (`0-9`, `a-f`, `A-F`). -/
def hexDigitVal (c : Char) : Option ℕ :=
  if 48 ≤ c.toNat ∧ c.toNat ≤ 57 then some (c.toNat - 48)
  else if 97 ≤ c.toNat ∧ c.toNat ≤ 102 then some (c.toNat - 87)
  else if 65 ≤ c.toNat ∧ c.toNat ≤ 70 then some (c.toNat - 55)
  else none

/-- JS `parseIntFromHex` on a two-digit hex string. -/
def hexPair (a b : Char) : Option ℕ := do
  let x ← hexDigitVal a
  let y ← hexDigitVal b
  pure (16 * x + y)

/-- The whitespace class used by JS `String.prototype.trim` (the characters
relevant here: space, tab, LF, VT, FF, CR). -/
def isJsSpace (c : Char) : Bool :=
  c.toNat = 32 || c.toNat = 9 || c.toNat = 10 || c.toNat = 11 ||
    c.toNat = 12 || c.toNat = 13

/-- JS `String.prototype.trim` at the character-list level. -/
def trimChars (cs : List Char) : List Char :=
  ((cs.dropWhile isJsSpace).reverse.dropWhile isJsSpace).reverse

/-- tinycolor `stringInputToObject` restricted to the hex matchers: trim,
strip one optional leading `#`, then match `hex8`/`hex6`/`hex4`/`hex3`
(alpha digits are validated but dropped, as `toHexString` ignores alpha).
Returns `none` for every other string (the tinycolor result `ok: false`). -/
def stringInputToRGB (s : String) : Option (ℕ × ℕ × ℕ) :=
  let cs := trimChars s.toList
  let cs := match cs with
    | c :: rest => if c.toNat = 35 then rest else c :: rest
    | [] => []
  match cs with
  | [r1, r2, g1, g2, b1, b2, a1, a2] => do
    let r ← hexPair r1 r2
    let g ← hexPair g1 g2
    let b ← hexPair b1 b2
    let _ ← hexPair a1 a2
    pure (r, g, b)
  | [r1, r2, g1, g2, b1, b2] => do
    let r ← hexPair r1 r2
    let g ← hexPair g1 g2
    let b ← hexPair b1 b2
    pure (r, g, b)
  | [rc, gc, bc, ac] => do
    let r ← hexPair rc rc
    let g ← hexPair gc gc
    let b ← hexPair bc bc
    let _ ← hexPair ac ac
    pure (r, g, b)
  | [rc, gc, bc] => do
    let r ← hexPair rc rc
    let g ← hexPair gc gc
    let b ← hexPair bc bc
    pure (r, g, b)
  | _ => none

/-- tinycolor `inputToRGB` on a string: an unrecognized input yields the
default `{r: 0, g: 0, b: 0, ok: false}`. -/
def tinycolorRGB (s : String) : ℕ × ℕ × ℕ :=
  match stringInputToRGB s with
  | some rgb => rgb
  | none => (0, 0, 0)

/-- The tinycolor constructor rounds any channel below 1
(`if (this._r < 1) this._r = mathRound(this._r)`). -/
def lt1Round (x : ℚ) : ℚ := if x < 1 then ((jsRound x : ℤ) : ℚ) else x

/-- JS `pad2`: left-pad a one-character hex string with `0`. -/
def pad2 (s : String) : String := if s.length = 1 then "0" ++ s else s

/-- JS `Number.prototype.toString(16)` for the natural numbers arising here
(lowercase hex digits). -/
def natToHex16 (n : ℕ) : String := ⟨Nat.toDigits 16 n⟩

/-- One channel of `rgbToHex`: `pad2(mathRound(c).toString(16))`. -/
def hexByte (n : ℕ) : String := pad2 (natToHex16 n)

/-- tinycolor `toHexString` on channels of the `[0, 255]` scale. -/
def rgbToHexString (r g b : ℚ) : String :=
  "#" ++ hexByte (jsRound r).toNat ++ hexByte (jsRound g).toNat ++
    hexByte (jsRound b).toNat

/-- The HSL coordinates of a color string (tinycolor `toHsl` with the hue
still on the `[0, 1)` scale, before the public `h * 360`). -/
def hslOfHex (s : String) : Hsl :=
  rgbToHsl (tinycolorRGB s).1 (tinycolorRGB s).2.1 (tinycolorRGB s).2.2

/-- The exact composition `tinycolor(s).desaturate(20).toHexString()` used
by `transformSoft`: parse, convert to HSL, subtract `20 / 100` from the
saturation clamped into `[0, 1]` (hue and lightness passed through), convert
back to RGB, render as a 6-digit lowercase hex string. -/
def desaturateHex (s : String) : String :=
  rgbToHexString
    (lt1Round (hslToRgb ((hslOfHex s).h * 360)
      (clamp01 ((hslOfHex s).s - 20 / 100)) (hslOfHex s).l).r)
    (lt1Round (hslToRgb ((hslOfHex s).h * 360)
      (clamp01 ((hslOfHex s).s - 20 / 100)) (hslOfHex s).l).g)
    (lt1Round (hslToRgb ((hslOfHex s).h * 360)
      (clamp01 ((hslOfHex s).s - 20 / 100)) (hslOfHex s).l).b)

/-- Is `c` a hex digit? -/
def isHexDigitChar (c : Char) : Bool := (hexDigitVal c).isSome

/-- Shape of a bare 6-digit hex color string: `#` followed by six hex
digits (the shape `toHexString` renders, and the shape of the palette
entries of the source YAML). -/
def isHex6String (s : String) : Bool :=
  match s.toList with
  | c :: rest => c.toNat == 35 && rest.length == 6 && rest.all isHexDigitChar
  | [] => false

/-- Shape of an alpha-suffixed hex color string: `#` followed by eight hex
digits (a 6-digit color carrying a 2-digit alpha suffix). -/
def isHex8String (s : String) : Bool :=
  match s.toList with
  | c :: rest => c.toNat == 35 && rest.length == 8 && rest.all isHexDigitChar
  | [] => false

/-! ## The theme data model (`Theme` typedef of `generate.js`) -/

/-- The `dracula` palette groups: named ordered lists of hex color strings. -/
structure DraculaPalette where
  base : List String
  ansi : List String
  brightOther : List String
  other : List String
  deriving DecidableEq

/-- Textmate token settings (`fontStyle` is a space-separated flag list). -/
structure TokenSettings where
  foreground : Option String
  background : Option String
  fontStyle : Option String
  deriving DecidableEq

/-- One Textmate token color rule. -/
structure TokenColor where
  name : Option String
  scope : List String
  settings : TokenSettings
  deriving DecidableEq

/-- A parsed (and sanitized) theme: palette groups, the VSCode color mapping
and the token color rules. The color mapping is a JS object, modelled as an
association list. -/
structure Theme where
  dracula : DraculaPalette
  colors : List (String × String)
  tokenColors : List TokenColor
  deriving DecidableEq

/-! ## The `!alpha` custom YAML type -/

/-- JS string-or-undefined, as it appears in array destructuring: a missing
element is `undefined` and string concatenation coerces it to the literal
text `undefined`. -/
def jsStringOrUndefined (v : Option String) : String :=
  match v with
  | some s => s
  | none => "undefined"

/-- The `construct` of the custom `!alpha` YAML type:
`([hexRGB, alpha]) => hexRGB + alpha`. The source destructures the first two
elements of the sequence and concatenates them; it contains no failure path
(the default js-yaml `resolve` accepts every sequence), so the result is
embedded as an always-`ok` `Except` to make "raises a parse error"
expressible. -/
def withAlphaConstruct (seq : List String) : Except String String :=
  Except.ok (jsStringOrUndefined (seq.get? 0) ++ jsStringOrUndefined (seq.get? 1))

/-! ## Post-load sanitation (`module.exports` in `generate.js`) -/

/-- JS truthiness of a loaded color value: `null`/`undefined` (`none`) and
the empty string are falsy, every other string is truthy. -/
def jsTruthy (v : Option String) : Bool :=
  match v with
  | none => false
  | some s => !(s == "")

/-- The sanitation loop of the module export —
keep exactly the entries whose value is truthy. -/
def sanitizeColors (raw : List (String × Option String)) : List (String × String) :=
  raw.filterMap (fun kv =>
    if jsTruthy kv.2 then kv.2.map (fun s => (kv.1, s)) else none)

/-! ## The soft transform (`transformSoft`) -/

/-- The list `brightColors = [...soft.dracula.ansi, ...soft.dracula.brightOther]`. -/
def brightColors (t : Theme) : List String :=
  t.dracula.ansi ++ t.dracula.brightOther

/-- The token-color pass of `transformSoft`: desaturate the foreground when
it is a member of `brightColors` (JS `includes`, exact string equality). -/
def softenToken (bright : List String) (tc : TokenColor) : TokenColor :=
  match tc.settings.foreground with
  | some f =>
    if bright.contains f then
      { tc with settings := { tc.settings with foreground := some (desaturateHex f) } }
    else tc
  | none => tc

/-- The soft transform `transformSoft`: deep-copy the theme (the identity here), then replace
every color-mapping value that is a member of `brightColors` — and every
token foreground that is a member — with its desaturated form. -/
def transformSoft (t : Theme) : Theme :=
  let bright := brightColors t
  { t with
    colors := t.colors.map (fun kv =>
      if bright.contains kv.2 then (kv.1, desaturateHex kv.2) else kv)
    tokenColors := t.tokenColors.map (softenToken bright) }

/-! ## The high-contrast transform (`transformHighContrast`) -/

/-- The fixed list of background-role keys swept to black in phase 1 of
`transformHighContrast` (`bgKeys` in `generate.js`). -/
def bgKeys : List String := [
  "activityBar.background",
  "breadcrumb.background",
  "debugToolBar.background",
  "editor.background",
  "editorGutter.background",
  "editorGroup.background",
  "editorGroupHeader.tabsBackground",
  "editorGroupHeader.noTabsBackground",
  "editorHoverWidget.background",
  "editorMarkerNavigation.background",
  "editorSuggestWidget.background",
  "editorWidget.background",
  "input.background",
  "list.activeSelectionBackground",
  "list.dropBackground",
  "list.focusBackground",
  "list.hoverBackground",
  "list.inactiveSelectionBackground",
  "menu.background",
  "panel.background",
  "peekViewEditor.background",
  "peekViewResult.background",
  "peekViewTitle.background",
  "pickerGroup.border",
  "quickInput.background",
  "scrollbarSlider.background",
  "scrollbarSlider.hoverBackground",
  "scrollbarSlider.activeBackground",
  "settings.checkboxBackground",
  "settings.dropdownBackground",
  "settings.numberInputBackground",
  "settings.textInputBackground",
  "sideBar.background",
  "sideBarSectionHeader.background",
  "statusBar.background",
  "statusBar.noFolderBackground",
  "statusBar.debuggingBackground",
  "tab.activeBackground",
  "tab.inactiveBackground",
  "tab.unfocusedActiveBackground",
  "terminal.background",
  "titleBar.activeBackground",
  "titleBar.inactiveBackground",
  "walkThrough.embeddedEditorBackground",
  "welcomePage.background",
  "window.activeBorder"]

/-- Is `k` targeted by the phase-1 sweep?
`bgKeys.includes(key)`, or the key ends with `background` or `Background`. -/
def sweepTarget (k : String) : Bool :=
  bgKeys.contains k || jsEndsWith k "background" || jsEndsWith k "Background"

/-- Is `k` exempted from the phase-1 sweep? The seven `key.includes(...)`
checks of `generate.js` (substring containment). -/
def sweepExempt (k : String) : Bool :=
  jsIncludes k "selection" || jsIncludes k "Selection" || jsIncludes k "button" ||
    jsIncludes k "Badge" || jsIncludes k "diffEditor" || jsIncludes k "merge" ||
    jsIncludes k "highlight" || jsIncludes k "OverviewRuler"

/-- Phase 1 of `transformHighContrast` on a single entry: force the value to
black when the key is targeted and not exempted. -/
def sweepColor (k v : String) : String :=
  if sweepTarget k && !sweepExempt k then "#000000" else v

/-- Phase 1 of `transformHighContrast` on the whole color mapping: the loop
`for key of Object.keys(hc.colors)` conditionally assigning existing keys. -/
def sweepColors (colors : List (String × String)) : List (String × String) :=
  colors.map (fun kv => (kv.1, sweepColor kv.1 kv.2))

/-- The explicit override table applied by `Object.assign` in phase 2 of
`transformHighContrast` (`overrides` in `generate.js`; 153 entries, comments
and the one commented-out entry dropped). -/
def overrides : List (String × String) := [
  ("focusBorder", "#FFFFFF"),
  ("contrastBorder", "#FFFFFF"),
  ("contrastActiveBorder", "#FF79C6"),
  ("editor.background", "#000000"),
  ("editor.foreground", "#FFFFFF"),
  ("foreground", "#FFFFFF"),
  ("descriptionForeground", "#FFFFFF"),
  ("errorForeground", "#FF5555"),
  ("editor.selectionBackground", "#FFFFFF"),
  ("editor.selectionForeground", "#000000"),
  ("selection.background", "#000099"),
  ("widget.shadow", "#000000"),
  ("tab.activeBackground", "#000000"),
  ("tab.activeBorder", "#FF79C6"),
  ("tab.activeForeground", "#FFFFFF"),
  ("tab.border", "#FFFFFF"),
  ("tab.inactiveBackground", "#000000"),
  ("tab.inactiveForeground", "#FFFFFF"),
  ("sideBar.background", "#000000"),
  ("sideBar.border", "#FFFFFF"),
  ("sideBarTitle.foreground", "#FFFFFF"),
  ("activityBar.background", "#000000"),
  ("activityBar.border", "#FFFFFF"),
  ("activityBar.foreground", "#FFFFFF"),
  ("activityBar.activeBorder", "#FF79C6"),
  ("editorGroup.border", "#FFFFFF"),
  ("editorGroupHeader.tabsBackground", "#000000"),
  ("editorGroupHeader.tabsBorder", "#FFFFFF"),
  ("panel.background", "#000000"),
  ("panel.border", "#FFFFFF"),
  ("panelTitle.activeBorder", "#FF79C6"),
  ("panelTitle.activeForeground", "#FFFFFF"),
  ("panelTitle.inactiveForeground", "#FFFFFF"),
  ("titleBar.activeBackground", "#000000"),
  ("titleBar.activeForeground", "#FFFFFF"),
  ("titleBar.inactiveBackground", "#000000"),
  ("titleBar.inactiveForeground", "#FFFFFF"),
  ("titleBar.border", "#FFFFFF"),
  ("statusBar.background", "#000000"),
  ("statusBar.border", "#FFFFFF"),
  ("statusBar.foreground", "#FFFFFF"),
  ("statusBar.debuggingBackground", "#000000"),
  ("statusBar.debuggingBorder", "#FF5555"),
  ("terminal.background", "#000000"),
  ("terminal.border", "#FFFFFF"),
  ("breadcrumb.background", "#000000"),
  ("breadcrumb.foreground", "#FFFFFF"),
  ("breadcrumbPicker.background", "#000000"),
  ("sideBarSectionHeader.background", "#000000"),
  ("sideBarSectionHeader.foreground", "#FFFFFF"),
  ("sideBarSectionHeader.border", "#FFFFFF"),
  ("button.background", "#000000"),
  ("button.foreground", "#FFFFFF"),
  ("button.border", "#FFFFFF"),
  ("button.separator", "#FFFFFF"),
  ("button.hoverBackground", "#44475A"),
  ("button.secondaryBackground", "#000000"),
  ("button.secondaryForeground", "#FFFFFF"),
  ("button.secondaryHoverBackground", "#44475A"),
  ("dropdown.background", "#000000"),
  ("dropdown.border", "#FFFFFF"),
  ("dropdown.foreground", "#FFFFFF"),
  ("quickInput.background", "#000000"),
  ("pickerGroup.border", "#FFFFFF"),
  ("pickerGroup.foreground", "#FFFFFF"),
  ("editorWidget.background", "#000000"),
  ("editorWidget.border", "#FFFFFF"),
  ("editorWidget.foreground", "#FFFFFF"),
  ("editorSuggestWidget.background", "#000000"),
  ("editorSuggestWidget.border", "#FFFFFF"),
  ("editorSuggestWidget.foreground", "#FFFFFF"),
  ("editorHoverWidget.background", "#000000"),
  ("editorHoverWidget.border", "#FFFFFF"),
  ("editorHoverWidget.foreground", "#FFFFFF"),
  ("debugToolBar.background", "#000000"),
  ("debugToolBar.border", "#FFFFFF"),
  ("notificationCenter.border", "#FFFFFF"),
  ("notificationCenterHeader.background", "#000000"),
  ("notificationCenterHeader.foreground", "#FFFFFF"),
  ("notificationToast.border", "#FFFFFF"),
  ("notifications.background", "#000000"),
  ("notifications.foreground", "#FFFFFF"),
  ("notifications.border", "#FFFFFF"),
  ("menu.background", "#000000"),
  ("menu.foreground", "#FFFFFF"),
  ("menu.selectionBackground", "#FFFFFF"),
  ("menu.selectionForeground", "#000000"),
  ("menu.border", "#FFFFFF"),
  ("menu.separatorBackground", "#FFFFFF"),
  ("peekView.border", "#FFFFFF"),
  ("peekViewEditor.background", "#000000"),
  ("peekViewEditor.matchHighlightBackground", "#FFFFFF"),
  ("peekViewResult.background", "#000000"),
  ("peekViewResult.fileForeground", "#FFFFFF"),
  ("peekViewResult.lineForeground", "#FFFFFF"),
  ("peekViewResult.matchHighlightBackground", "#FFFFFF"),
  ("peekViewResult.selectionBackground", "#FFFFFF"),
  ("peekViewResult.selectionForeground", "#000000"),
  ("peekViewTitle.background", "#000000"),
  ("peekViewTitleDescription.foreground", "#FFFFFF"),
  ("peekViewTitleLabel.foreground", "#FFFFFF"),
  ("settings.checkboxBackground", "#000000"),
  ("settings.checkboxForeground", "#FFFFFF"),
  ("settings.checkboxBorder", "#FFFFFF"),
  ("settings.dropdownBackground", "#000000"),
  ("settings.dropdownForeground", "#FFFFFF"),
  ("settings.dropdownBorder", "#FFFFFF"),
  ("settings.headerForeground", "#FFFFFF"),
  ("settings.modifiedItemIndicator", "#FF79C6"),
  ("settings.numberInputBackground", "#000000"),
  ("settings.numberInputForeground", "#FFFFFF"),
  ("settings.numberInputBorder", "#FFFFFF"),
  ("settings.textInputBackground", "#000000"),
  ("settings.textInputForeground", "#FFFFFF"),
  ("settings.textInputBorder", "#FFFFFF"),
  ("activityBarBadge.background", "#000000"),
  ("activityBarBadge.foreground", "#FFFFFF"),
  ("badge.background", "#000000"),
  ("badge.foreground", "#FFFFFF"),
  ("scrollbarSlider.background", "#FFFFFF60"),
  ("scrollbarSlider.activeBackground", "#FFFFFF"),
  ("scrollbarSlider.hoverBackground", "#FFFFFF"),
  ("input.background", "#000000"),
  ("input.foreground", "#FFFFFF"),
  ("input.border", "#FFFFFF"),
  ("diffEditor.insertedTextBackground", "#003500"),
  ("diffEditor.insertedTextBorder", "#50FA7B"),
  ("diffEditor.removedTextBackground", "#350000"),
  ("diffEditor.removedTextBorder", "#FF5555"),
  ("merge.currentHeaderBackground", "#000000"),
  ("merge.currentContentBackground", "#000000"),
  ("merge.incomingHeaderBackground", "#000000"),
  ("merge.incomingContentBackground", "#000000"),
  ("merge.border", "#FFFFFF"),
  ("merge.commonHeaderBackground", "#000000"),
  ("merge.commonContentBackground", "#000000"),
  ("list.activeSelectionBackground", "#000000"),
  ("list.activeSelectionForeground", "#FFFFFF"),
  ("list.focusOutline", "#FF79C6"),
  ("list.hoverBackground", "#000000"),
  ("list.hoverForeground", "#FFFFFF"),
  ("textPreformat.foreground", "#FFFFFF"),
  ("textPreformat.background", "#282A36"),
  ("textCodeBlock.background", "#000000"),
  ("textLink.foreground", "#8BE9FD"),
  ("textLink.activeForeground", "#8BE9FD"),
  ("textBlockQuote.background", "#000000"),
  ("textBlockQuote.border", "#FFFFFF"),
  ("textSeparator.foreground", "#FFFFFF"),
  ("keybindingLabel.background", "#000000"),
  ("keybindingLabel.foreground", "#FFFFFF"),
  ("keybindingLabel.border", "#FFFFFF"),
  ("keybindingLabel.bottomBorder", "#FFFFFF")]

/-- The high-contrast transform `transformHighContrast`: deep-copy the theme (the identity here), phase 1
sweeps background-role keys to black, phase 2 applies the override table with
`Object.assign`. Only `colors` is modified. -/
def transformHighContrast (t : Theme) : Theme :=
  { t with colors := objAssign (sweepColors t.colors) overrides }

/-! ## Lemmas about the JS object model -/

theorem lookup_nil {α : Type} (k : String) : lookup ([] : List (String × α)) k = none := rfl

theorem lookup_cons {α : Type} (k0 : String) (v0 : α) (rest : List (String × α))
    (k : String) :
    lookup ((k0, v0) :: rest) k = if k0 == k then some v0 else lookup rest k := rfl

theorem lookup_map_entry {α β : Type} (f : String × α → String × β)
    (hf : ∀ kv, (f kv).1 = kv.1) (l : List (String × α)) (k : String) :
    lookup (l.map f) k = (lookup l k).map (fun v => (f (k, v)).2) := by
  induction l with
  | nil => rfl
  | cons hd tl ih =>
    obtain ⟨k0, v0⟩ := hd
    have hk0 : (f (k0, v0)).1 = k0 := hf (k0, v0)
    have hfe : f (k0, v0) = (k0, (f (k0, v0)).2) := by
      rw [Prod.ext_iff]; exact ⟨hk0, rfl⟩
    rw [List.map_cons, hfe, lookup_cons, lookup_cons]
    by_cases h : k0 = k
    · subst h
      simp
    · simp [h, ih]

theorem lookup_setKey_self {α : Type} (m : List (String × α)) (k : String) (v : α) :
    lookup (setKey m k v) k = some v := by
  induction m with
  | nil => simp [setKey, lookup]
  | cons hd tl ih =>
    obtain ⟨k0, v0⟩ := hd
    simp only [setKey]
    by_cases h : k0 = k
    · simp [h, lookup]
    · simp [h, lookup, ih]

theorem lookup_setKey_ne {α : Type} (m : List (String × α)) (k k2 : String) (v : α)
    (h : k2 ≠ k) : lookup (setKey m k v) k2 = lookup m k2 := by
  induction m with
  | nil => simp [setKey, lookup, Ne.symm h]
  | cons hd tl ih =>
    obtain ⟨k0, v0⟩ := hd
    simp only [setKey]
    by_cases hk : k0 = k
    · subst hk
      simp [lookup, Ne.symm h]
    · simp only [beq_iff_eq, hk, if_false, lookup, ih]

theorem lookup_objAssign_not_mem {α : Type} (ovr : List (String × α)) (k : String) :
    ∀ m : List (String × α), k ∉ ovr.map Prod.fst →
      lookup (objAssign m ovr) k = lookup m k := by
  induction ovr with
  | nil => intro m _; rfl
  | cons hd tl ih =>
    intro m h
    obtain ⟨k0, v0⟩ := hd
    simp only [List.map_cons, List.mem_cons, not_or] at h
    show lookup (objAssign (setKey m k0 v0) tl) k = lookup m k
    rw [ih _ h.2, lookup_setKey_ne _ _ _ _ h.1]

theorem lookup_objAssign_mem {α : Type} (ovr : List (String × α)) (k : String) (v : α) :
    ∀ m : List (String × α), (ovr.map Prod.fst).Nodup → lookup ovr k = some v →
      lookup (objAssign m ovr) k = some v := by
  induction ovr with
  | nil => intro m _ h; simp [lookup] at h
  | cons hd tl ih =>
    intro m hnd h
    obtain ⟨k0, v0⟩ := hd
    simp only [List.map_cons, List.nodup_cons] at hnd
    simp only [lookup] at h
    by_cases hk : k0 = k
    · subst hk
      simp only [beq_self_eq_true, if_pos] at h
      show lookup (objAssign (setKey m k0 v0) tl) k0 = some v
      rw [lookup_objAssign_not_mem _ _ _ hnd.1, lookup_setKey_self]
      exact h
    · simp only [beq_iff_eq, hk, if_false] at h
      show lookup (objAssign (setKey m k0 v0) tl) k = some v
      exact ih (setKey m k0 v0) hnd.2 h

attribute [irreducible] objAssign

theorem lookup_eq_none_iff {α : Type} (l : List (String × α)) (k : String) :
    lookup l k = none ↔ k ∉ l.map Prod.fst := by
  induction l with
  | nil => simp [lookup_nil]
  | cons hd tl ih =>
    obtain ⟨k0, v0⟩ := hd
    rw [lookup_cons, List.map_cons]
    by_cases h : k0 = k
    · subst h; simp
    · have hks : ¬ k = k0 := fun hh => h hh.symm
      simp [h, ih, hks]

theorem overrides_keys_nodup : (overrides.map Prod.fst).Nodup := by decide

/-! ## Lemmas about sanitation -/

theorem sanitizeColors_cons_none (k : String) (tl : List (String × Option String)) :
    sanitizeColors ((k, none) :: tl) = sanitizeColors tl := rfl

theorem sanitizeColors_cons_empty (k : String) (tl : List (String × Option String)) :
    sanitizeColors ((k, some "") :: tl) = sanitizeColors tl := rfl

theorem sanitizeColors_cons_some (k s : String) (tl : List (String × Option String))
    (hs : s ≠ "") : sanitizeColors ((k, some s) :: tl) = (k, s) :: sanitizeColors tl := by
  have ht : jsTruthy (some s) = true := by simp [jsTruthy, hs]
  simp only [sanitizeColors, List.filterMap_cons, ht, if_true]
  rfl

theorem lookup_sanitize_not_mem (raw : List (String × Option String)) (k : String)
    (h : k ∉ raw.map Prod.fst) : lookup (sanitizeColors raw) k = none := by
  induction raw with
  | nil => rfl
  | cons hd tl ih =>
    obtain ⟨k0, v0⟩ := hd
    simp only [List.map_cons, List.mem_cons, not_or] at h
    have hne : (k0 == k) = false := beq_eq_false_iff_ne.mpr (fun hh => h.1 hh.symm)
    cases v0 with
    | none => rw [sanitizeColors_cons_none]; exact ih h.2
    | some s =>
      by_cases hs : s = ""
      · subst hs; rw [sanitizeColors_cons_empty]; exact ih h.2
      · rw [sanitizeColors_cons_some _ _ _ hs, lookup_cons, hne]
        simpa using ih h.2

theorem lookup_sanitize (raw : List (String × Option String)) (k : String)
    (hnd : (raw.map Prod.fst).Nodup) :
    lookup (sanitizeColors raw) k =
      match lookup raw k with
      | some (some s) => if s == "" then none else some s
      | _ => none := by
  induction raw with
  | nil => rfl
  | cons hd tl ih =>
    obtain ⟨k0, v0⟩ := hd
    simp only [List.map_cons, List.nodup_cons] at hnd
    by_cases h : k0 = k
    · subst h
      rw [show lookup ((k0, v0) :: tl) k0 = some v0 by
        rw [lookup_cons, beq_self_eq_true, if_pos rfl]]
      cases v0 with
      | none =>
        rw [sanitizeColors_cons_none]
        exact lookup_sanitize_not_mem tl k0 hnd.1
      | some s =>
        by_cases hs : s = ""
        · subst hs
          rw [sanitizeColors_cons_empty]
          simpa using lookup_sanitize_not_mem tl k0 hnd.1
        · rw [sanitizeColors_cons_some _ _ _ hs, lookup_cons, beq_self_eq_true, if_pos rfl]
          simp [hs]
    · have hne : (k0 == k) = false := beq_eq_false_iff_ne.mpr h
      rw [show lookup ((k0, v0) :: tl) k = lookup tl k by rw [lookup_cons, hne]; simp]
      cases v0 with
      | none => rw [sanitizeColors_cons_none]; exact ih hnd.2
      | some s =>
        by_cases hs : s = ""
        · subst hs; rw [sanitizeColors_cons_empty]; exact ih hnd.2
        · rw [sanitizeColors_cons_some _ _ _ hs, lookup_cons, hne]
          simpa using ih hnd.2

/-! ## Range lemmas for the numeric pipeline

These establish that `hslToRgb` always produces channels in `[0, 255]`, so
`toHexString` always renders a 6-digit hex string. -/

theorem jsMod_eq_fract (n m : ℚ) (hm : m ≠ 0) : jsMod n m = m * Int.fract (n / m) := by
  unfold jsMod Int.fract
  rw [mul_sub, mul_div_cancel₀ n hm]

theorem jsMod_nonneg (n m : ℚ) (hm : 0 < m) : 0 ≤ jsMod n m := by
  rw [jsMod_eq_fract n m hm.ne']
  exact mul_nonneg hm.le (Int.fract_nonneg _)

theorem jsMod_lt (n m : ℚ) (hm : 0 < m) : jsMod n m < m := by
  rw [jsMod_eq_fract n m hm.ne']
  calc m * Int.fract (n / m) < m * 1 := by
        exact mul_lt_mul_of_pos_left (Int.fract_lt_one _) hm
    _ = m := mul_one m

theorem bound01_mem (isPct : Bool) (n maxv : ℚ) (h : 0 < maxv) :
    0 ≤ bound01 isPct n maxv ∧ bound01 isPct n maxv ≤ 1 := by
  unfold bound01
  split_ifs with habs
  · exact ⟨zero_le_one, le_refl 1⟩
  · constructor
    · exact div_nonneg (jsMod_nonneg _ _ h) h.le
    · exact le_of_lt ((div_lt_one h).mpr (jsMod_lt _ _ h))

theorem hueNorm_mem (t : ℚ) (ht1 : -1 ≤ t) (ht2 : t ≤ 2) :
    0 ≤ hueNorm2 (hueNorm1 t) ∧ hueNorm2 (hueNorm1 t) ≤ 1 := by
  unfold hueNorm1 hueNorm2
  split_ifs <;> constructor <;> linarith

theorem hue2rgbStep_nonneg (p q t : ℚ) (hp : 0 ≤ p) (hpq : p ≤ q) (ht : 0 ≤ t) :
    0 ≤ hue2rgbStep p q t := by
  unfold hue2rgbStep
  split_ifs <;> nlinarith [hp, hpq, ht]

theorem hue2rgbStep_le_one (p q t : ℚ) (_hp : 0 ≤ p) (hpq : p ≤ q) (hq : q ≤ 1)
    (_ht : 0 ≤ t) : hue2rgbStep p q t ≤ 1 := by
  unfold hue2rgbStep
  split_ifs <;> nlinarith [hpq, hq]

theorem hue2rgb_mem (p q t : ℚ) (hp : 0 ≤ p) (hpq : p ≤ q) (hq : q ≤ 1)
    (ht1 : -1 ≤ t) (ht2 : t ≤ 2) : 0 ≤ hue2rgb p q t ∧ hue2rgb p q t ≤ 1 := by
  have hn := hueNorm_mem t ht1 ht2
  exact ⟨hue2rgbStep_nonneg _ _ _ hp hpq hn.1, hue2rgbStep_le_one _ _ _ hp hpq hq hn.1⟩

theorem hslPQ_bounds (s l : ℚ) (hs0 : 0 ≤ s) (hs1 : s ≤ 1) (hl0 : 0 ≤ l) (hl1 : l ≤ 1) :
    0 ≤ hslP s l ∧ hslP s l ≤ hslQ s l ∧ hslQ s l ≤ 1 := by
  unfold hslP hslQ
  split_ifs with h <;>
    refine ⟨?_, ?_, ?_⟩ <;>
    nlinarith [mul_nonneg hl0 hs0, mul_nonneg hl0 (sub_nonneg.mpr hs1),
      mul_nonneg hs0 (sub_nonneg.mpr hl1)]

theorem hslToRgb_mem (h s01 l01 : ℚ) :
    (0 ≤ (hslToRgb h s01 l01).r ∧ (hslToRgb h s01 l01).r ≤ 255) ∧
    (0 ≤ (hslToRgb h s01 l01).g ∧ (hslToRgb h s01 l01).g ≤ 255) ∧
    (0 ≤ (hslToRgb h s01 l01).b ∧ (hslToRgb h s01 l01).b ≤ 255) := by
  have hh := bound01_mem false h 360 (by norm_num)
  have hs := bound01_mem true (s01 * 100) 100 (by norm_num)
  have hl := bound01_mem true (l01 * 100) 100 (by norm_num)
  have hpq := hslPQ_bounds (bound01 true (s01 * 100) 100) (bound01 true (l01 * 100) 100)
    hs.1 hs.2 hl.1 hl.2
  unfold hslToRgb
  split_ifs with hs0
  · refine ⟨⟨?_, ?_⟩, ⟨?_, ?_⟩, ⟨?_, ?_⟩⟩ <;> simp only [] <;> nlinarith [hl.1, hl.2]
  · have hr := hue2rgb_mem _ _ (bound01 false h 360 + 1 / 3) hpq.1 hpq.2.1 hpq.2.2
      (by linarith [hh.1]) (by linarith [hh.2])
    have hg := hue2rgb_mem _ _ (bound01 false h 360) hpq.1 hpq.2.1 hpq.2.2
      (by linarith [hh.1]) (by linarith [hh.2])
    have hb := hue2rgb_mem _ _ (bound01 false h 360 - 1 / 3) hpq.1 hpq.2.1 hpq.2.2
      (by linarith [hh.1]) (by linarith [hh.2])
    refine ⟨⟨?_, ?_⟩, ⟨?_, ?_⟩, ⟨?_, ?_⟩⟩ <;> simp only [] <;>
      [nlinarith [hr.1]; nlinarith [hr.2]; nlinarith [hg.1]; nlinarith [hg.2];
        nlinarith [hb.1]; nlinarith [hb.2]]

theorem jsRound_mem (x : ℚ) (h0 : 0 ≤ x) (h255 : x ≤ 255) :
    0 ≤ jsRound x ∧ jsRound x ≤ 255 := by
  unfold jsRound
  constructor
  · exact Int.le_floor.mpr (by push_cast; linarith)
  · calc ⌊x + 1 / 2⌋ ≤ ⌊(511 : ℚ) / 2⌋ := Int.floor_le_floor (by linarith)
      _ = 255 := by norm_num [Int.floor_eq_iff]

theorem lt1Round_mem (x : ℚ) (h0 : 0 ≤ x) (h255 : x ≤ 255) :
    0 ≤ lt1Round x ∧ lt1Round x ≤ 255 := by
  unfold lt1Round
  split_ifs with h1
  · have hr := jsRound_mem x h0 h255
    constructor
    · exact_mod_cast hr.1
    · exact_mod_cast hr.2
  · exact ⟨h0, h255⟩

theorem hexByte_shape : ∀ n : ℕ, n < 256 →
    (hexByte n).toList.length = 2 ∧ (hexByte n).toList.all isHexDigitChar = true := by
  decide

theorem isHex6String_of_toList (c : Char) (rest : List Char) (s : String)
    (hs : s.toList = c :: rest) :
    isHex6String s = (c.toNat == 35 && rest.length == 6 && rest.all isHexDigitChar) := by
  unfold isHex6String
  rw [hs]

theorem rgbToHexString_shape (r g b : ℚ)
    (hr : 0 ≤ r ∧ r ≤ 255) (hg : 0 ≤ g ∧ g ≤ 255) (hb : 0 ≤ b ∧ b ≤ 255) :
    isHex6String (rgbToHexString r g b) = true := by
  have hrn : (jsRound r).toNat < 256 := by
    have := jsRound_mem r hr.1 hr.2
    omega
  have hgn : (jsRound g).toNat < 256 := by
    have := jsRound_mem g hg.1 hg.2
    omega
  have hbn : (jsRound b).toNat < 256 := by
    have := jsRound_mem b hb.1 hb.2
    omega
  have h1 := hexByte_shape _ hrn
  have h2 := hexByte_shape _ hgn
  have h3 := hexByte_shape _ hbn
  have hdata : (rgbToHexString r g b).toList =
      Char.ofNat 35 :: ((hexByte (jsRound r).toNat).toList ++
        (hexByte (jsRound g).toNat).toList ++ (hexByte (jsRound b).toNat).toList) := by
    unfold rgbToHexString
    simp [String.toList, String.data_append]
  rw [isHex6String_of_toList _ _ _ hdata]
  simp only [List.length_append, List.all_append, h1.1, h1.2, h2.1, h2.2, h3.1, h3.2]
  decide

/-- Every output of the desaturation pipeline is a 6-digit hex string. -/
theorem desaturateHex_shape (s : String) : isHex6String (desaturateHex s) = true := by
  unfold desaturateHex
  apply rgbToHexString_shape
  · exact lt1Round_mem _ (hslToRgb_mem _ _ _).1.1 (hslToRgb_mem _ _ _).1.2
  · exact lt1Round_mem _ (hslToRgb_mem _ _ _).2.1.1 (hslToRgb_mem _ _ _).2.1.2
  · exact lt1Round_mem _ (hslToRgb_mem _ _ _).2.2.1 (hslToRgb_mem _ _ _).2.2.2

/-- Saturation as computed by `rgbToHsl` is never negative. -/
theorem hslSat_nonneg (r g b : ℚ) (hr0 : 0 ≤ r) (hr1 : r ≤ 1) (hg0 : 0 ≤ g) (hg1 : g ≤ 1)
    (hb0 : 0 ≤ b) (hb1 : b ≤ 1) : 0 ≤ hslSat r g b := by
  have hmax1 : rgbMax r g b ≤ 1 := max_le hr1 (max_le hg1 hb1)
  have hmin0 : 0 ≤ rgbMin r g b := le_min hr0 (le_min hg0 hb0)
  have hmm : rgbMin r g b ≤ rgbMax r g b :=
    le_trans (min_le_left _ _) (le_max_left _ _)
  unfold hslSat
  split_ifs with h
  · exact div_nonneg (by linarith) (by linarith)
  · exact div_nonneg (by linarith) (by linarith)

theorem rgbToHsl_s_nonneg (r g b : ℚ) : 0 ≤ (rgbToHsl r g b).s := by
  have h1 := bound01_mem false r 255 (by norm_num)
  have h2 := bound01_mem false g 255 (by norm_num)
  have h3 := bound01_mem false b 255 (by norm_num)
  unfold rgbToHsl rgbToHsl01
  split_ifs with h
  · simp
  · simpa using hslSat_nonneg _ _ _ h1.1 h1.2 h2.1 h2.2 h3.1 h3.2

/-- A string cannot be both a 6-digit and an 8-digit hex color. -/
theorem hex6_ne_hex8 (v : String) (h6 : isHex6String v = true)
    (h8 : isHex8String v = true) : False := by
  unfold isHex6String at h6
  unfold isHex8String at h8
  cases hl : v.toList with
  | nil => rw [hl] at h6; simp at h6
  | cons c rest =>
    rw [hl] at h6 h8
    simp only [Bool.and_eq_true, beq_iff_eq] at h6 h8
    omega

/-- Projection of the high-contrast transform onto the color mapping. -/
theorem transformHighContrast_colors (t : Theme) :
    (transformHighContrast t).colors = objAssign (sweepColors t.colors) overrides := rfl

/-- Projection of the soft transform onto the color mapping. -/
theorem transformSoft_colors (t : Theme) :
    (transformSoft t).colors = t.colors.map (fun kv =>
      if (brightColors t).contains kv.2 then (kv.1, desaturateHex kv.2) else kv) := rfl

/-- Projection of the soft transform onto the token colors. -/
theorem transformSoft_tokenColors (t : Theme) :
    (transformSoft t).tokenColors = t.tokenColors.map (softenToken (brightColors t)) := rfl

/-- Evaluation of `softenToken` on a rule whose foreground is present. -/
theorem softenToken_eq (bright : List String) (tc : TokenColor) (f : String)
    (hf : tc.settings.foreground = some f) :
    softenToken bright tc =
      if bright.contains f then
        { tc with settings := { tc.settings with foreground := some (desaturateHex f) } }
      else tc := by
  unfold softenToken
  rw [hf]

/-! ## The claims -/

/-- C1: for every key present in the high-contrast override table, the
high-contrast output color mapping maps that key to exactly the value from the table, for every input theme — hence regardless of the phase-1 sweep result
for that key and regardless of the value of the key in the input theme. -/
theorem override_table_is_authoritative (t : Theme) (k v : String)
    (h : lookup overrides k = some v) :
    lookup (transformHighContrast t).colors k = some v := by
  rw [transformHighContrast_colors]
  exact lookup_objAssign_mem overrides k v (sweepColors t.colors) overrides_keys_nodup h

/-- Witness for C1: `focusBorder` is in the table with value `#FFFFFF` and
the table wins over the input value `#123456`. -/
theorem override_table_is_authoritative_witness :
    lookup overrides "focusBorder" = some "#FFFFFF" ∧
    lookup (transformHighContrast
        { dracula := ⟨[], [], [], []⟩
          colors := [("focusBorder", "#123456")]
          tokenColors := [] }).colors "focusBorder" = some "#FFFFFF" :=
  ⟨by decide, override_table_is_authoritative _ _ _ (by decide)⟩

/-- C2: in the phase-1 sweep, every key of the input mapping that is in
`bgKeys` or ends with `background`/`Background`, and contains none of the
eight exemption substrings, has value `#000000` after phase 1; if the key is
moreover absent from the override table, the final high-contrast output maps
it to `#000000`. -/
theorem background_sweep_forces_black (t : Theme) (k v : String)
    (hin : lookup t.colors k = some v)
    (htgt : (bgKeys.contains k || jsEndsWith k "background" ||
      jsEndsWith k "Background") = true)
    (hexm : (jsIncludes k "selection" || jsIncludes k "Selection" ||
      jsIncludes k "button" || jsIncludes k "Badge" || jsIncludes k "diffEditor" ||
      jsIncludes k "merge" || jsIncludes k "highlight" ||
      jsIncludes k "OverviewRuler") = false) :
    lookup (sweepColors t.colors) k = some "#000000" ∧
    (lookup overrides k = none →
      lookup (transformHighContrast t).colors k = some "#000000") := by
  have ht2 : sweepTarget k = true := htgt
  have he2 : sweepExempt k = false := hexm
  have hsw : sweepColor k v = "#000000" := by
    simp [sweepColor, ht2, he2]
  have h1 : lookup (sweepColors t.colors) k = some "#000000" := by
    show lookup (t.colors.map (fun kv => (kv.1, sweepColor kv.1 kv.2))) k = some "#000000"
    rw [lookup_map_entry (fun kv => (kv.1, sweepColor kv.1 kv.2)) (fun kv => rfl)
      t.colors k, hin]
    simp [hsw]
  refine ⟨h1, fun hov => ?_⟩
  rw [transformHighContrast_colors,
    lookup_objAssign_not_mem overrides k (sweepColors t.colors)
      ((lookup_eq_none_iff _ _).mp hov)]
  exact h1

/-- Witness for C2: `minimap.background` ends with `background`, matches no
exemption substring, is absent from the override table, and comes out black;
`editor.background` is also in the theme to exercise the `bgKeys` branch. -/
theorem background_sweep_forces_black_witness :
    lookup (sweepColors [("editor.background", "#282A36"),
      ("minimap.background", "#282A36")]) "minimap.background" = some "#000000" ∧
    lookup (transformHighContrast
        { dracula := ⟨[], [], [], []⟩
          colors := [("editor.background", "#282A36"), ("minimap.background", "#282A36")]
          tokenColors := [] }).colors "minimap.background" = some "#000000" := by
  have h := background_sweep_forces_black
    { dracula := ⟨[], [], [], []⟩
      colors := [("editor.background", "#282A36"), ("minimap.background", "#282A36")]
      tokenColors := [] }
    "minimap.background" "#282A36" (by decide) (by decide) (by decide)
  exact ⟨h.1, h.2 (by decide)⟩

/-- C3: every color-mapping value that is a member (exact, case-sensitive
string equality) of `dracula.ansi ++ dracula.brightOther` is replaced by its
desaturated form rendered as a 6-digit hex string, and every token-color
foreground that is a member is likewise replaced. -/
theorem soft_desaturates_bright (t : Theme) :
    (∀ k v, lookup t.colors k = some v → (brightColors t).contains v = true →
      lookup (transformSoft t).colors k = some (desaturateHex v) ∧
      isHex6String (desaturateHex v) = true) ∧
    (∀ (i : ℕ) (tc : TokenColor) (f : String), t.tokenColors[i]? = some tc →
      tc.settings.foreground = some f → (brightColors t).contains f = true →
      (transformSoft t).tokenColors[i]? = some
        { tc with settings := { tc.settings with foreground := some (desaturateHex f) } }) := by
  constructor
  · intro k v hin hc
    refine ⟨?_, desaturateHex_shape v⟩
    rw [transformSoft_colors,
      lookup_map_entry (fun kv =>
        if (brightColors t).contains kv.2 then (kv.1, desaturateHex kv.2) else kv)
        (fun kv => by
          show (if (brightColors t).contains kv.2 then (kv.1, desaturateHex kv.2)
            else kv).1 = kv.1
          split <;> rfl)
        t.colors k, hin]
    show some ((if (brightColors t).contains v then (k, desaturateHex v) else (k, v)).2) =
      some (desaturateHex v)
    rw [if_pos hc]
  · intro i tc f htc hf hc
    rw [transformSoft_tokenColors, List.getElem?_map, htc]
    show some (softenToken (brightColors t) tc) = _
    rw [softenToken_eq (brightColors t) tc f hf, if_pos hc]

/-- Witness for C3: `#FF5555` is in `ansi`; its desaturation is `#ee6666`,
replacing both a mapping value and a token foreground. -/
theorem soft_desaturates_bright_witness :
    lookup (transformSoft
        ⟨⟨[], ["#FF5555"], [], []⟩, [("statusBar.foreground", "#FF5555")],
          [⟨none, ["keyword"], ⟨some "#FF5555", none, none⟩⟩]⟩).colors
      "statusBar.foreground" = some (desaturateHex "#FF5555") ∧
    (transformSoft
        ⟨⟨[], ["#FF5555"], [], []⟩, [("statusBar.foreground", "#FF5555")],
          [⟨none, ["keyword"], ⟨some "#FF5555", none, none⟩⟩]⟩).tokenColors[0]? =
      some ⟨none, ["keyword"], ⟨some (desaturateHex "#FF5555"), none, none⟩⟩ ∧
    desaturateHex "#FF5555" = "#ee6666" :=
  ⟨((soft_desaturates_bright _).1 "statusBar.foreground" "#FF5555"
      (by decide) (by decide)).1,
   (soft_desaturates_bright _).2 0 ⟨none, ["keyword"], ⟨some "#FF5555", none, none⟩⟩
      "#FF5555" (by decide) (by decide) (by decide),
   by decide⟩

/-- C4: values not in the bright palette pass through the soft transform
unchanged; and if every bright-palette entry is a bare 6-digit hex string,
every alpha-suffixed (8-digit) value is not a member and passes through
unchanged. -/
theorem soft_preserves_nonbright (t : Theme) (k v : String)
    (hin : lookup t.colors k = some v) :
    ((brightColors t).contains v = false → lookup (transformSoft t).colors k = some v) ∧
    ((∀ c ∈ brightColors t, isHex6String c = true) → isHex8String v = true →
      lookup (transformSoft t).colors k = some v) := by
  have hmain : (brightColors t).contains v = false →
      lookup (transformSoft t).colors k = some v := by
    intro hc
    rw [transformSoft_colors,
      lookup_map_entry (fun kv =>
        if (brightColors t).contains kv.2 then (kv.1, desaturateHex kv.2) else kv)
        (fun kv => by
          show (if (brightColors t).contains kv.2 then (kv.1, desaturateHex kv.2)
            else kv).1 = kv.1
          split <;> rfl)
        t.colors k, hin]
    show some ((if (brightColors t).contains v then (k, desaturateHex v) else (k, v)).2) =
      some v
    rw [if_neg (by rw [hc]; exact Bool.false_ne_true)]
  refine ⟨hmain, fun hall h8 => hmain ?_⟩
  by_contra hcon
  have hv : v ∈ brightColors t := by
    simp only [Bool.not_eq_false] at hcon
    simpa using hcon
  exact hex6_ne_hex8 v (hall v hv) h8

/-- Witness for C4: `#44475A66` carries an alpha suffix; with a bare-hex
bright palette it passes through the soft transform untouched, as does the
non-member `#282A36`. -/
theorem soft_preserves_nonbright_witness :
    lookup (transformSoft
        { dracula := ⟨[], ["#FF5555"], ["#44475A"], []⟩
          colors := [("editor.background", "#282A36"),
            ("editor.selectionBackground", "#44475A66")]
          tokenColors := [] }).colors "editor.background" = some "#282A36" ∧
    lookup (transformSoft
        { dracula := ⟨[], ["#FF5555"], ["#44475A"], []⟩
          colors := [("editor.background", "#282A36"),
            ("editor.selectionBackground", "#44475A66")]
          tokenColors := [] }).colors "editor.selectionBackground" = some "#44475A66" :=
  ⟨(soft_preserves_nonbright _ "editor.background" "#282A36" (by decide)).1 (by decide),
   (soft_preserves_nonbright _ "editor.selectionBackground" "#44475A66" (by decide)).2
      (by decide) (by decide)⟩

/-- C5: after sanitation the color mapping contains no key whose loaded
value was falsy (`null`/`undefined`, i.e. `none`, or the empty string), and
every truthy entry is kept with its value unchanged (keys of the loaded
object are unique). -/
theorem sanitize_removes_falsy (raw : List (String × Option String)) (k : String)
    (hnd : (raw.map Prod.fst).Nodup) :
    (∀ v, lookup raw k = some v → jsTruthy v = false →
      lookup (sanitizeColors raw) k = none) ∧
    (∀ s, lookup raw k = some (some s) → s ≠ "" →
      lookup (sanitizeColors raw) k = some s) := by
  constructor
  · intro v hv hfal
    rw [lookup_sanitize raw k hnd, hv]
    cases v with
    | none => rfl
    | some s =>
      have hs : s = "" := by simpa [jsTruthy] using hfal
      subst hs
      rfl
  · intro s hs hne
    rw [lookup_sanitize raw k hnd, hs]
    simp [hne]

/-- Witness for C5: a `null` entry and an empty-string entry disappear, a
truthy entry survives unchanged. -/
theorem sanitize_removes_falsy_witness :
    lookup (sanitizeColors [("editor.background", some "#282A36"),
      ("editor.foreground", none), ("terminal.border", some "")])
      "editor.foreground" = none ∧
    lookup (sanitizeColors [("editor.background", some "#282A36"),
      ("editor.foreground", none), ("terminal.border", some "")])
      "terminal.border" = none ∧
    lookup (sanitizeColors [("editor.background", some "#282A36"),
      ("editor.foreground", none), ("terminal.border", some "")])
      "editor.background" = some "#282A36" :=
  ⟨(sanitize_removes_falsy _ "editor.foreground" (by decide)).1 none (by decide) (by decide),
   (sanitize_removes_falsy _ "terminal.border" (by decide)).1 (some "") (by decide)
      (by decide),
   (sanitize_removes_falsy _ "editor.background" (by decide)).2 "#282A36" (by decide)
      (by decide)⟩

/-- C7 (counterexample): applying the `!alpha` construct to a sequence of
arity 1 — an invalid arity — does not raise: it returns a value, namely the
single element with the JS coercion text `undefined` appended. -/
theorem alpha_arity_one_returns_value :
    ([("#FF5555" : String)].length ≠ 2) ∧
    withAlphaConstruct ["#FF5555"] = Except.ok "#FF5555undefined" :=
  ⟨by decide, rfl⟩

/-- C7 (amended): the `!alpha` construct never fails, for a sequence of any
arity; on a two-element sequence it returns the concatenation of the two
elements (missing elements of shorter sequences contribute the literal text
`undefined`, extra elements of longer sequences are ignored). -/
theorem alpha_construct_total (seq : List String) :
    (∃ v, withAlphaConstruct seq = Except.ok v) ∧
    (∀ hexRGB alphaSuffix, seq = [hexRGB, alphaSuffix] →
      withAlphaConstruct seq = Except.ok (hexRGB ++ alphaSuffix)) := by
  constructor
  · exact ⟨_, rfl⟩
  · rintro a b rfl
    rfl

/-- Witness for C7 (amended): the normal two-element case concatenates. -/
theorem alpha_construct_total_witness :
    withAlphaConstruct ["#282A36", "66"] = Except.ok "#282A3666" :=
  (alpha_construct_total ["#282A36", "66"]).2 "#282A36" "66" rfl

/-- C8 (counterexample): for the bright `ansi` value `#F1FA8C` the soft
output is `#e7ee98`; re-interpreted in HSL space, the output has exactly the
lightness of the input and exactly the 20-point-lower saturation, but its hue
differs from the input hue — so hue is not preserved in the rendered
output. -/
theorem soft_hsl_hue_not_preserved :
    lookup (transformSoft
        { dracula := ⟨[], ["#F1FA8C"], [], []⟩
          colors := [("terminal.ansiYellow", "#F1FA8C")]
          tokenColors := [] }).colors "terminal.ansiYellow" = some "#e7ee98" ∧
    (hslOfHex "#e7ee98").l = (hslOfHex "#F1FA8C").l ∧
    (hslOfHex "#e7ee98").s = clamp01 ((hslOfHex "#F1FA8C").s - 20 / 100) ∧
    (hslOfHex "#e7ee98").h ≠ (hslOfHex "#F1FA8C").h :=
  ⟨by decide, by decide, by decide, by decide⟩

/-- C8 (amended): the soft transform computes the output of a parsed color
by keeping the HSL hue and lightness and lowering the saturation by exactly
20 points clamped at 0, then rendering that HSL triple to 8-bit-rounded
6-digit hex; the lowered saturation never exceeds the original. The own HSL
coordinates of the output agree with that triple only up to the 8-bit rounding. -/
theorem soft_desaturation_structure (c : String) (r g b : ℕ)
    (hparse : stringInputToRGB c = some (r, g, b)) :
    desaturateHex c =
      rgbToHexString
        (lt1Round (hslToRgb ((rgbToHsl r g b).h * 360)
          (clamp01 ((rgbToHsl r g b).s - 20 / 100)) (rgbToHsl r g b).l).r)
        (lt1Round (hslToRgb ((rgbToHsl r g b).h * 360)
          (clamp01 ((rgbToHsl r g b).s - 20 / 100)) (rgbToHsl r g b).l).g)
        (lt1Round (hslToRgb ((rgbToHsl r g b).h * 360)
          (clamp01 ((rgbToHsl r g b).s - 20 / 100)) (rgbToHsl r g b).l).b) ∧
    clamp01 ((rgbToHsl r g b).s - 20 / 100) ≤ (rgbToHsl r g b).s := by
  constructor
  · unfold desaturateHex hslOfHex tinycolorRGB
    rw [hparse]
  · have hs := rgbToHsl_s_nonneg (r : ℚ) g b
    unfold clamp01
    exact le_trans (min_le_right _ _) (max_le hs (by linarith))

/-- Witness for C8 (amended) at `#FF5555` (parsed as `(255, 85, 85)`). -/
theorem soft_desaturation_structure_witness :
    stringInputToRGB "#FF5555" = some (255, 85, 85) ∧
    (desaturateHex "#FF5555" =
      rgbToHexString
        (lt1Round (hslToRgb ((rgbToHsl 255 85 85).h * 360)
          (clamp01 ((rgbToHsl 255 85 85).s - 20 / 100)) (rgbToHsl 255 85 85).l).r)
        (lt1Round (hslToRgb ((rgbToHsl 255 85 85).h * 360)
          (clamp01 ((rgbToHsl 255 85 85).s - 20 / 100)) (rgbToHsl 255 85 85).l).g)
        (lt1Round (hslToRgb ((rgbToHsl 255 85 85).h * 360)
          (clamp01 ((rgbToHsl 255 85 85).s - 20 / 100)) (rgbToHsl 255 85 85).l).b) ∧
      clamp01 ((rgbToHsl 255 85 85).s - 20 / 100) ≤ (rgbToHsl 255 85 85).s) :=
  ⟨by decide, soft_desaturation_structure "#FF5555" 255 85 85 (by decide)⟩

/-- C9: the high-contrast transform inserts override-table keys that the
input lacks: a key absent from the input color mapping but present in the
table appears in the output with the table value. -/
theorem high_contrast_inserts_missing_keys (t : Theme) (k v : String)
    (_habs : lookup t.colors k = none) (hov : lookup overrides k = some v) :
    lookup (transformHighContrast t).colors k = some v := by
  rw [transformHighContrast_colors]
  exact lookup_objAssign_mem overrides k v (sweepColors t.colors) overrides_keys_nodup hov

/-- Witness for C9: the empty theme lacks `keybindingLabel.border`, yet the
high-contrast output contains it with the table value `#FFFFFF`. -/
theorem high_contrast_inserts_missing_keys_witness :
    lookup ([] : List (String × String)) "keybindingLabel.border" = none ∧
    lookup (transformHighContrast
        { dracula := ⟨[], [], [], []⟩, colors := [], tokenColors := [] }).colors
      "keybindingLabel.border" = some "#FFFFFF" :=
  ⟨by decide, high_contrast_inserts_missing_keys _ _ _ (by decide) (by decide)⟩

/-- C10: the high-contrast transform modifies only the color mapping — the
token colors and the dracula palette groups of the output equal those of the
input, for every theme. -/
theorem high_contrast_modifies_only_colors (t : Theme) :
    (transformHighContrast t).tokenColors = t.tokenColors ∧
    (transformHighContrast t).dracula = t.dracula :=
  ⟨rfl, rfl⟩

end Gen
